import Mathlib

/-!
Verification of the Northwind-SQL-Copilot text-to-SQL pipeline core.

This file is a shallow embedding of the repository's pipeline orchestrator
(`src/pipeline.py`: `TextToSQLPipeline.run`, `_clean_sql`, `_sanitize_result`),
the cache store (`src/cache.py`: `CacheManager`) and the data model
(`src/models.py`: `ExecutionLog`, `QueryResponse`).

External collaborators (the two LLM backends, the database, the clock) are
modelled as an environment record of possibly-failing functions; a Python
exception is modelled as `Except.error` carrying the exception's description
string (`str(e)`).  File I/O for the cache's backing file is modelled as an
explicit `FileState` threaded through the operations.  The structured log
sink (`DailyLogger.log_struct`) is modelled as the list of records appended
during a run.
-/

set_option maxHeartbeats 1000000

/-! ## Python string primitives -/

/-- Characters treated as whitespace by Python's `str.strip` (ASCII subset;
the modelled strings are ASCII). -/
def pyIsSpace (c : Char) : Bool :=
  c == ' ' || c == '\t' || c == '\n' || c == '\r' ||
  c == Char.ofNat 11 || c == Char.ofNat 12

/-- Python `str.strip()` on a character list: drop leading and trailing
whitespace. -/
def pyStripL (l : List Char) : List Char :=
  ((l.dropWhile pyIsSpace).reverse.dropWhile pyIsSpace).reverse

/-- Python `str.strip()`. -/
def pyStripS (s : String) : String :=
  ⟨pyStripL s.data⟩

/-- Python `str.lower()` (ASCII; `Char.toLower` maps `A`–`Z` to `a`–`z` and
fixes everything else, matching Python on ASCII input). -/
def pyLower (s : String) : String :=
  ⟨s.data.map Char.toLower⟩

/-! ## `TextToSQLPipeline._clean_sql`

`re.sub(r'```sql|```', '', query, flags=re.IGNORECASE).strip()`:
scan left to right; at each position an occurrence of a backtick fence with
`sql` tag (case-insensitive) is preferred over a bare triple-backtick fence
(regex alternation order); matched occurrences are deleted. -/

/-- The backtick character. -/
def backtick : Char := Char.ofNat 96

/-- Does the list start with a case-insensitive fence-with-tag occurrence
(three backticks followed by `sql` in any case)? -/
def isFenceSql : List Char → Bool
  | a :: b :: c :: s :: q :: l :: _ =>
    a == backtick && b == backtick && c == backtick &&
    s.toLower == 's' && q.toLower == 'q' && l.toLower == 'l'
  | _ => false

/-- Does the list start with a bare triple-backtick fence? -/
def isFence3 : List Char → Bool
  | a :: b :: c :: _ => a == backtick && b == backtick && c == backtick
  | _ => false

/-- One left-to-right pass of `re.sub(r'```sql|```', '', ·)`.  The fuel
argument (instantiated with the list length) makes the recursion structural,
so that concrete instances evaluate by `decide`. -/
def subFencesAux : Nat → List Char → List Char
  | 0, _ => []
  | _ + 1, [] => []
  | fuel + 1, c :: cs =>
    if isFenceSql (c :: cs) then subFencesAux fuel (cs.drop 5)
    else if isFence3 (c :: cs) then subFencesAux fuel (cs.drop 2)
    else c :: subFencesAux fuel cs

/-- `re.sub(r'```sql|```', '', l, flags=re.IGNORECASE)` on a character
list. -/
def subFences (l : List Char) : List Char :=
  subFencesAux l.length l

/-- `TextToSQLPipeline._clean_sql` (src/pipeline.py line 44-45). -/
def clean_sql (query : String) : String :=
  ⟨pyStripL (subFences query.data)⟩

/-- Auxiliary predicate for stating C7: the list contains a triple-backtick
occurrence somewhere. -/
def hasFence : List Char → Bool
  | [] => false
  | c :: cs => isFence3 (c :: cs) || hasFence cs

/-! ## `TextToSQLPipeline._sanitize_result`

The raw value is `eval` of the database driver's textual result: a Python
list of row tuples.  Scalars are modelled as integers or strings. -/

/-- A Python scalar appearing in a result row. -/
inductive PyVal where
  | int (n : ℤ)
  | str (s : String)
  deriving DecidableEq, Repr

/-- The single-quote character (used by Python `repr` of strings). -/
def squote : String := (Char.ofNat 39).toString

/-- Python `str(v)` of a scalar: integers print their digits, strings print
themselves without quotes. -/
def pyStrVal : PyVal → String
  | .int n => toString n
  | .str s => s

/-- Python `repr(v)` of a scalar as it appears inside a printed container:
strings are quoted (escape sequences are out of the modelled alphabet). -/
def pyReprVal : PyVal → String
  | .int n => toString n
  | .str s => squote ++ s ++ squote

/-- Python `str` of a tuple: `(x,)` for a 1-tuple, `(x, y, ...)` otherwise. -/
def pyReprTuple (row : List PyVal) : String :=
  match row with
  | [v] => "(" ++ pyReprVal v ++ ",)"
  | _ => "(" ++ String.intercalate ", " (row.map pyReprVal) ++ ")"

/-- Python `str` of a list of tuples: `[t1, t2, ...]`. -/
def pyReprRows (rows : List (List PyVal)) : String :=
  "[" ++ String.intercalate ", " (rows.map pyReprTuple) ++ "]"

/-- `TextToSQLPipeline._sanitize_result` (src/pipeline.py line 47-53).
`if not raw_result: return "[]"`; then if the first row is a 1-tuple,
`str(raw_result[0][0])`; otherwise `str(raw_result)`. -/
def sanitize_result (raw_result : List (List PyVal)) : String :=
  match raw_result with
  | [] => "[]"
  | row :: rest =>
    match row with
    | [v] => pyStrVal v
    | _ => pyReprRows (row :: rest)

/-! ## `CacheManager` (src/cache.py)

The backing file is modelled explicitly: it is `missing`, it is unreadable
or not syntactically valid JSON (`unreadable` — `open`/`json.load` raise
`IOError`/`json.JSONDecodeError`, both caught by `_load_cache`), or it holds
a parsed JSON value.  A parsed value is either a key→entry map (`dict`) or
some other JSON value (`nondict`, e.g. a JSON array): `json.load` accepts
the latter without error, and `_load_cache` catches nothing, so it is
stored as-is in `self._cache`; `dict`-only operations on it then raise. -/

/-- A cache value: `{answer, sql_query}` as written by `run`. -/
structure CacheEntry where
  answer : String
  sql_query : String
  deriving DecidableEq, Repr

/-- A parsed JSON value held in `self._cache`. -/
inductive CacheVal where
  /-- A JSON object, i.e. a Python dict keyed by normalized question. -/
  | dict (m : List (String × CacheEntry))
  /-- Any other JSON value (array, string, number, ...). -/
  | nondict
  deriving DecidableEq, Repr

/-- The state of the backing cache file. -/
inductive FileState where
  /-- `os.path.exists` is false. -/
  | missing
  /-- The file exists but `open`/`json.load` raise `IOError` or
  `json.JSONDecodeError`. -/
  | unreadable
  /-- The file exists and parses to a JSON value. -/
  | parsed (v : CacheVal)
  deriving DecidableEq, Repr

/-- In-memory state of a `CacheManager` (the `file_path` field is implicit
in the threaded `FileState`). -/
structure CacheManager where
  enabled : Bool
  cache : CacheVal
  deriving DecidableEq, Repr

/-- First-match lookup in an association list (Python dict `.get`). -/
def lookupK : List (String × CacheEntry) → String → Option CacheEntry
  | [], _ => none
  | (k, v) :: rest, key => if k = key then some v else lookupK rest key

/-- Python dict assignment `d[key] = v`: overwrite the (unique) occurrence
of the key in place if present, append otherwise. -/
def setK : List (String × CacheEntry) → String → CacheEntry →
    List (String × CacheEntry)
  | [], key, v => [(key, v)]
  | (k1, v1) :: rest, key, v =>
    if k1 = key then (key, v) :: rest else (k1, v1) :: setK rest key v

/-- The cache key normalization `question.strip().lower()` used by both
`CacheManager.get` and `CacheManager.set`. -/
def normKey (question : String) : String :=
  pyLower (pyStripS question)

/-- `CacheManager.__init__` followed by `_load_cache` (src/cache.py lines
6-22): `self._cache = {}`, then, only when enabled and the file exists,
replace it with the parsed file content; a raised `IOError` or
`JSONDecodeError` is caught and leaves the empty dict. -/
def CacheManager.init (fs : FileState) (enabled : Bool) : CacheManager :=
  { enabled := enabled
    cache :=
      if enabled then
        match fs with
        | .parsed v => v
        | _ => .dict []
      else .dict [] }

/-- `CacheManager.get` (src/cache.py lines 35-39).  When the loaded cache
value is not a dict, `self._cache.get(...)` raises `AttributeError`, which
no caller catches before the pipeline's `try` block. -/
def CacheManager.get (cm : CacheManager) (question : String) :
    Except String (Option CacheEntry) :=
  if !cm.enabled then .ok none
  else
    match cm.cache with
    | .dict m => .ok (lookupK m (normKey question))
    | .nondict => .error "AttributeError: object has no attribute get"

/-- `CacheManager.set` followed by `_save_cache` (src/cache.py lines 24-47).
`saveOk` models whether the `json.dump` write raises `IOError` (which
`_save_cache` swallows, leaving the file as it was).  Item assignment on a
non-dict loaded value raises `TypeError`. -/
def CacheManager.set (cm : CacheManager) (fs : FileState) (saveOk : Bool)
    (question : String) (entry : CacheEntry) :
    Except String (CacheManager × FileState) :=
  if !cm.enabled then .ok (cm, fs)
  else
    match cm.cache with
    | .dict m =>
      let m2 := setK m (normKey question) entry
      .ok ({ cm with cache := .dict m2 },
           if saveOk then .parsed (.dict m2) else fs)
    | .nondict => .error "TypeError: object does not support item assignment"

/-! ## Data model (src/models.py) -/

/-- `ExecutionLog` (src/models.py lines 4-30).  Durations are rationals in
seconds; the `round(..., 2)` of measured wall-clock differences is folded
into the environment-provided measurement (time is an external input). -/
structure ExecutionLog where
  timestamp : String
  user_prompt : String
  sql_model : String
  nlp_model : String
  sql_prompt : Option String := none
  nlp_prompt : Option String := none
  sql_query : Option String := none
  result : Option String := none
  final_answer : Option String := none
  sql_generation_time : ℚ := 0
  query_execution_time : ℚ := 0
  answer_generation_time : ℚ := 0
  total_duration : ℚ := 0
  error : Option String := none
  success : Bool := false
  deriving DecidableEq, Repr

/-- `QueryResponse` (src/models.py lines 32-38). -/
structure QueryResponse where
  question : String
  answer : String
  sql_query : String
  execution_time : ℚ
  from_cache : Bool := false
  deriving DecidableEq, Repr

/-! ## `TextToSQLPipeline.run` (src/pipeline.py lines 55-138)

The external collaborators consumed inside `run` are gathered in an
environment record.  Each possibly-raising call is an `Except String`
value/function whose error carries `str(e)`.  The duration fields are the
already-rounded wall-clock measurements `round(time.time() - t0, 2)`
observed at each stage boundary — time is an input of the run. -/

/-- Environment of one `run` call: backends, database, clock, config. -/
structure Env where
  /-- `datetime.now().isoformat()`. -/
  timestamp : String
  /-- Config `SQL_MODEL`. -/
  sql_model : String
  /-- Config `NLP_MODEL`. -/
  nlp_model : String
  /-- `self.db.get_table_info()` — may raise. -/
  schemaF : Except String String
  /-- `get_sql_prompt().invoke({...}).to_string()` as a function of
  (schema, question). -/
  sqlRender : String → String → String
  /-- `self.sql_llm.invoke(prompt).content` — may raise. -/
  sqlInvoke : String → Except String String
  /-- `eval(self.db.run(sql))` — may raise (either the driver call or the
  `eval` of its textual result). -/
  dbRun : String → Except String (List (List PyVal))
  /-- `get_nlp_prompt().invoke({...}).to_string()` as a function of
  (question, query, result). -/
  nlpRender : String → String → String → String
  /-- `self.nlp_llm.invoke(prompt).content` — may raise. -/
  nlpInvoke : String → Except String String
  /-- Measured `round(time.time() - t0, 2)` for the generation stage. -/
  dGen : ℚ
  /-- Measured duration of the execution stage. -/
  dExec : ℚ
  /-- Measured duration of the synthesis stage. -/
  dSynth : ℚ
  /-- Measured `round(time.time() - start_total, 2)` in the `finally`
  block. -/
  dTotal : ℚ
  /-- Whether `_save_cache`'s `json.dump` write succeeds (an `IOError`
  there is swallowed). -/
  saveOk : Bool

/-- Everything `run` leaves behind: the returned response, the cache state,
the backing-file state, and the structured records appended to the log sink
(`app_logger.log_struct`). -/
structure RunOut where
  resp : QueryResponse
  cache : CacheManager
  file : FileState
  sink : List ExecutionLog
  deriving Repr

/-- Python `x or d` on an optional string: `None` and `""` are falsy. -/
def pyOr (o : Option String) (d : String) : String :=
  match o with
  | none => d
  | some s => if s = "" then d else s

/-- The `try:` body of `run` (src/pipeline.py lines 79-127), desugared into
explicit `Except` case analysis.  Returns the execution log, cache and file
state at exit of the body, plus `some description` when an exception
escaped the body (to be handled by the `except` clause). -/
def runBody (env : Env) (cm : CacheManager) (fs : FileState)
    (question : String) (log0 : ExecutionLog) :
    ExecutionLog × CacheManager × FileState × Option String :=
  match env.schemaF with
  | .error e => (log0, cm, fs, some e)
  | .ok schema =>
    let log1 := { log0 with sql_prompt := some (env.sqlRender schema question) }
    match env.sqlInvoke (env.sqlRender schema question) with
    | .error e => (log1, cm, fs, some e)
    | .ok raw =>
      let sql := clean_sql raw
      let log2 := { log1 with sql_query := some sql,
                              sql_generation_time := env.dGen }
      match env.dbRun sql with
      | .error e =>
        ({ log2 with result := some "Error executing query" }, cm, fs, some e)
      | .ok rows =>
        let res := sanitize_result rows
        let log3 := { log2 with result := some res,
                                query_execution_time := env.dExec }
        let log4 := { log3 with nlp_prompt := some (env.nlpRender question sql res) }
        match env.nlpInvoke (env.nlpRender question sql res) with
        | .error e => (log4, cm, fs, some e)
        | .ok rawAns =>
          let ans := pyStripS rawAns
          let log5 := { log4 with final_answer := some ans,
                                  answer_generation_time := env.dSynth,
                                  success := true }
          match cm.set fs env.saveOk question ⟨ans, sql⟩ with
          | .error e => (log5, cm, fs, some e)
          | .ok (cm2, fs2) => (log5, cm2, fs2, none)

/-- `TextToSQLPipeline.run` (src/pipeline.py lines 55-138).  The
`cache.get` call sits before the `try` block, so its exception (possible
when a non-dict JSON value was loaded) propagates to the caller as
`Except.error`.  On a hit the cached response is returned and no structured
record is emitted; otherwise the body runs, the `except` clause turns an
escaped exception into `error`/`final_answer` fields, and the `finally`
clause stamps `total_duration` and appends exactly one record to the sink. -/
def run (env : Env) (cm : CacheManager) (fs : FileState) (question : String) :
    Except String RunOut :=
  let log0 : ExecutionLog :=
    { timestamp := env.timestamp, user_prompt := question,
      sql_model := env.sql_model, nlp_model := env.nlp_model }
  match cm.get question with
  | .error e => .error e
  | .ok (some cd) =>
    .ok { resp := { question := question, answer := cd.answer,
                    sql_query := cd.sql_query, execution_time := 0,
                    from_cache := true },
          cache := cm, file := fs, sink := [] }
  | .ok none =>
    let b := runBody env cm fs question log0
    let logE :=
      match b.2.2.2 with
      | some e => { b.1 with error := some e,
                             final_answer := some ("Error: " ++ e) }
      | none => b.1
    let logF := { logE with total_duration := env.dTotal }
    .ok { resp := { question := question,
                    answer := logF.final_answer.getD "",
                    sql_query := pyOr logF.sql_query "Failed",
                    execution_time := logF.total_duration,
                    from_cache := false },
          cache := b.2.1, file := b.2.2.1, sink := [logF] }

deriving instance DecidableEq for Except

/-! ## Concrete fixtures used by witnesses and counterexamples -/

/-- An environment in which every stage succeeds: the SQL backend returns a
fenced query, the database returns the single aggregate row `[(42,)]`, the
NLP backend returns an answer with surrounding whitespace. -/
def envOk : Env :=
  { timestamp := "t", sql_model := "m1", nlp_model := "m2",
    schemaF := .ok "schema",
    sqlRender := fun _ _ => "SP",
    sqlInvoke := fun _ => .ok "```sql\nSELECT 1\n```",
    dbRun := fun _ => .ok [[.int 42]],
    nlpRender := fun _ _ _ => "NP",
    nlpInvoke := fun _ => .ok " The answer is 42. ",
    dGen := 1, dExec := 2, dSynth := 3, dTotal := 7, saveOk := true }

/-- An enabled cache freshly loaded from a missing backing file. -/
def cmE : CacheManager := CacheManager.init .missing true

/-- `envOk` with schema introspection failing (generation-stage failure). -/
def envSchemaFail : Env := { envOk with schemaF := .error "db down" }

/-- `envOk` with the answer-synthesis backend failing. -/
def envSynthFail : Env := { envOk with nlpInvoke := fun _ => .error "synth boom" }

/-- `envOk` where the SQL backend returns a bare fence (cleaned SQL is the
empty string) and the database then fails. -/
def envEmptySqlFail : Env :=
  { envOk with sqlInvoke := fun _ => .ok "```",
               dbRun := fun _ => .error "exec boom" }

/-- `envOk` where the SQL backend returns a bare fence (cleaned SQL is the
empty string) and every following stage still succeeds. -/
def envEmptySqlOk : Env := { envOk with sqlInvoke := fun _ => .ok "```" }

/-- An environment in which every external call fails: a run that consults
any backend or the database under this environment cannot produce a
successful stage. -/
def envAllFail : Env :=
  { timestamp := "t2", sql_model := "m1", nlp_model := "m2",
    schemaF := .error "no call expected",
    sqlRender := fun _ _ => "SP",
    sqlInvoke := fun _ => .error "no call expected",
    dbRun := fun _ => .error "no call expected",
    nlpRender := fun _ _ _ => "NP",
    nlpInvoke := fun _ => .error "no call expected",
    dGen := 0, dExec := 0, dSynth := 0, dTotal := 9, saveOk := true }

/-- Cache and file state after the first (successful, empty-SQL) run of
`envEmptySqlOk` on question `"q"`. -/
def c5Mid : CacheManager × FileState :=
  match run envEmptySqlOk cmE .missing "q" with
  | .ok o => (o.cache, o.file)
  | .error _ => (cmE, .missing)

/-- Decidable form of the finalization invariant claimed for C3: exactly
one of {`success` with `final_answer` set and `error` unset} and
{not `success` with `error` set} holds. -/
def logStatusExclusive (l : ExecutionLog) : Bool :=
  ((l.success == true) && l.final_answer.isSome && (l.error == none)) ^^
  ((l.success == false) && l.error.isSome)

/-! ## Helper lemmas -/

theorem fence3_of_fenceSql {l : List Char} (h : isFenceSql l = true) :
    isFence3 l = true := by
  rcases l with _ | ⟨a, _ | ⟨b, _ | ⟨c, _ | ⟨s, _ | ⟨q, _ | ⟨r, t⟩⟩⟩⟩⟩⟩ <;>
    simp only [isFenceSql, isFence3, Bool.and_eq_true] at h ⊢ <;>
    first
      | exact h.1.1.1
      | exact absurd h Bool.false_ne_true

theorem subFencesAux_of_noFence (l : List Char) (h : hasFence l = false) :
    ∀ fuel, l.length ≤ fuel → subFencesAux fuel l = l := by
  induction l with
  | nil => intro fuel _; cases fuel <;> rfl
  | cons c cs ih =>
    intro fuel hf
    have h3 : isFence3 (c :: cs) = false := by
      by_contra hc
      simp [hasFence, Bool.eq_false_iff.mp] at h
      exact absurd h.1 hc
    have hcs : hasFence cs = false := by
      simp [hasFence] at h
      exact h.2
    have hsql : isFenceSql (c :: cs) = false := by
      by_contra hc
      have := fence3_of_fenceSql (Bool.of_not_eq_false hc)
      rw [h3] at this
      exact Bool.false_ne_true this
    rcases fuel with _ | n
    · simp at hf
    · simp only [subFencesAux, hsql, h3, Bool.false_eq_true, if_false]
      have : cs.length ≤ n := by simpa using hf
      rw [ih hcs n this]

theorem lookupK_setK (m : List (String × CacheEntry)) (k : String)
    (v : CacheEntry) : lookupK (setK m k v) k = some v := by
  induction m with
  | nil => simp [setK, lookupK]
  | cons p rest ih =>
    rcases p with ⟨k1, v1⟩
    by_cases hk : k1 = k
    · simp [setK, hk, lookupK]
    · simp [setK, hk, lookupK, ih]

theorem cache_shape_of_get_ok {cm : CacheManager} {q : String}
    {r : Option CacheEntry} (h : cm.get q = .ok r) :
    cm.enabled = false ∨ ∃ m, cm.cache = CacheVal.dict m := by
  by_cases hen : cm.enabled = true
  · right
    rcases hc : cm.cache with m | _
    · exact ⟨m, rfl⟩
    · exfalso
      simp [CacheManager.get, hen, hc] at h
  · left
    exact Bool.not_eq_true _ |>.mp hen

theorem set_ok_of_shape {cm : CacheManager}
    (h : cm.enabled = false ∨ ∃ m, cm.cache = CacheVal.dict m)
    (fs : FileState) (so : Bool) (q : String) (e : CacheEntry) :
    ∃ p, cm.set fs so q e = .ok p := by
  rcases h with hen | ⟨m, hm⟩
  · exact ⟨(cm, fs), by simp [CacheManager.set, hen]⟩
  · by_cases hen : cm.enabled = true
    · exact ⟨({ cm with cache := .dict (setK m (normKey q) e) },
               if so then FileState.parsed (.dict (setK m (normKey q) e)) else fs),
              by simp [CacheManager.set, hen, hm]⟩
    · exact ⟨(cm, fs), by simp [CacheManager.set,
        Bool.not_eq_true _ |>.mp hen]⟩

/-! ## Claim C6 — result canonicalization -/

/-- Claim C6, counterexample: a multi-row single-column sequence of
1-tuples does NOT canonicalize to the string form of the full row sequence;
`_sanitize_result` only inspects the first row and unwraps `[(1,), (2,)]`
to `"1"`, dropping the remaining rows from the text. -/
theorem claim_C6_counterexample :
    sanitize_result [[PyVal.int 1], [PyVal.int 2]] = "1" ∧
    pyReprRows [[PyVal.int 1], [PyVal.int 2]] = "[(1,), (2,)]" ∧
    ("1" : String) ≠ "[(1,), (2,)]" := by decide

/-- Claim C6, amended: an empty row sequence canonicalizes to `"[]"`; a
result whose FIRST row is a 1-tuple canonicalizes to the string form of
that row's single scalar value, regardless of how many rows follow; a
result whose first row is not a 1-tuple canonicalizes to the string form
of the full row sequence, unmodified. -/
theorem claim_C6_amended :
    sanitize_result [] = "[]" ∧
    (∀ (v : PyVal) (rest : List (List PyVal)),
      sanitize_result ([v] :: rest) = pyStrVal v) ∧
    (∀ (row : List PyVal) (rest : List (List PyVal)), row.length ≠ 1 →
      sanitize_result (row :: rest) = pyReprRows (row :: rest)) := by
  refine ⟨rfl, fun v rest => rfl, ?_⟩
  intro row rest h
  rcases row with _ | ⟨v, _ | ⟨w, t⟩⟩
  · rfl
  · exact absurd rfl h
  · rfl

/-- Claim C6, witness: the amended theorem's third conjunct evaluated on a
concrete multi-column row. -/
theorem claim_C6_witness :
    sanitize_result [[PyVal.int 1, PyVal.str "a"]] =
      pyReprRows [[PyVal.int 1, PyVal.str "a"]] :=
  claim_C6_amended.2.2 [PyVal.int 1, PyVal.str "a"] [] (by decide)

/-! ## Claim C7 — fence-stripping sanitizer -/

/-- Claim C7: `_clean_sql` maps each of the four spec inputs to exactly
`"SELECT 1"` — it removes fence markers with or without a language tag,
tag case-insensitively, and trims whitespace — and on fence-free input it
is exactly a whitespace trim. -/
theorem claim_C7 :
    clean_sql "SELECT 1" = "SELECT 1" ∧
    clean_sql "```sql\nSELECT 1\n```" = "SELECT 1" ∧
    clean_sql "```\nSELECT 1\n```" = "SELECT 1" ∧
    clean_sql "```SQL\nSELECT 1\n```" = "SELECT 1" ∧
    ∀ s : String, hasFence s.data = false → clean_sql s = pyStripS s := by
  refine ⟨by decide, by decide, by decide, by decide, ?_⟩
  intro s h
  unfold clean_sql pyStripS subFences
  rw [subFencesAux_of_noFence s.data h s.data.length le_rfl]

/-- Claim C7, witness: the fence-free conjunct evaluated on a concrete
input. -/
theorem claim_C7_witness : clean_sql "SELECT 2" = pyStripS "SELECT 2" :=
  claim_C7.2.2.2.2 "SELECT 2" (by decide)

/-! ## Claim C8 — cache store construction on a bad backing file -/

/-- Claim C8, counterexample: a backing file whose content is
syntactically valid JSON but not a key→value map (e.g. a JSON array) does
NOT degrade to an empty map: `_load_cache` catches only `JSONDecodeError`
and `IOError`, stores the non-dict value as-is, and the first `get` then
raises `AttributeError` instead of missing — unlike the genuinely empty
map obtained from a missing file. -/
theorem claim_C8_counterexample :
    ((CacheManager.init (.parsed .nondict) true).get "x").isOk = false ∧
    (CacheManager.init .missing true).get "x" = .ok none := by decide

/-- Claim C8, amended: for a backing file that is missing, unreadable, or
whose content fails JSON parsing, constructing the `CacheManager` succeeds
with an empty in-memory map and every subsequent `get` behaves as on an
empty map (returns `None`); content that parses as JSON but is not a
key→value map is instead loaded as-is and `get` raises. -/
theorem claim_C8_amended :
    (∀ en : Bool, CacheManager.init .missing en =
      { enabled := en, cache := .dict [] }) ∧
    (∀ en : Bool, CacheManager.init .unreadable en =
      { enabled := en, cache := .dict [] }) ∧
    (∀ (q : String) (en : Bool), (CacheManager.init .missing en).get q = .ok none) ∧
    (∀ (q : String) (en : Bool), (CacheManager.init .unreadable en).get q = .ok none) := by
  refine ⟨?_, ?_, ?_, ?_⟩
  · intro en; cases en <;> rfl
  · intro en; cases en <;> rfl
  · intro q en; cases en <;> rfl
  · intro q en; cases en <;> rfl

/-! ## Claim C9 — disabled-mode cache -/

/-- Claim C9: for a `CacheManager` constructed with `enabled = false`,
`get` returns `None` for every question, and `set` leaves both the
in-memory map and the backing file unchanged for every argument — `set`
and persistence are no-ops. -/
theorem claim_C9 :
    ∀ (fs0 fs : FileState) (so : Bool) (q : String) (e : CacheEntry),
      (CacheManager.init fs0 false).get q = .ok none ∧
      (CacheManager.init fs0 false).set fs so q e =
        .ok (CacheManager.init fs0 false, fs) := by
  intro fs0 fs so q e
  exact ⟨rfl, rfl⟩

/-! ## Claim C2 — guaranteed finalization of the structured record -/

/-- Claim C2: for every non-cached run (the cache lookup succeeds with a
miss), whatever the outcome of the three stages, `run` returns normally
and exactly one structured `ExecutionLog` record is appended to the log
sink, with `total_duration` stamped with the measurement taken in the
`finally` block. -/
theorem claim_C2 (env : Env) (cm : CacheManager) (fs : FileState) (q : String)
    (hmiss : cm.get q = .ok none) :
    (run env cm fs q).map (fun o => o.sink.map ExecutionLog.total_duration) =
      .ok [env.dTotal] := by
  rcases hb : runBody env cm fs q
      { timestamp := env.timestamp, user_prompt := q,
        sql_model := env.sql_model, nlp_model := env.nlp_model }
    with ⟨logB, cm2, fs2, _ | e⟩
  · simp [run, Except.map, hmiss, hb]
  · simp [run, Except.map, hmiss, hb]

/-- Claim C2, witness: a concrete fully-successful run persists exactly
one record stamped with the measured total duration. -/
theorem claim_C2_witness :
    (run envOk cmE .missing "q").map
        (fun o => o.sink.map ExecutionLog.total_duration) =
      .ok [envOk.dTotal] :=
  claim_C2 envOk cmE .missing "q" (by decide)

/-! ## Claim C3 — finalized record status invariant -/

/-- Claim C3: every record a non-cached run appends to the sink satisfies
exactly one of {`success = true` with `final_answer` set and `error`
unset} and {`success = false` with `error` set}. -/
theorem claim_C3 (env : Env) (cm : CacheManager) (fs : FileState) (q : String)
    (hmiss : cm.get q = .ok none) :
    (run env cm fs q).map (fun o => o.sink.map logStatusExclusive) =
      .ok [true] := by
  have hshape := cache_shape_of_get_ok hmiss
  rcases hs : env.schemaF with e | schema
  · simp [run, runBody, Except.map, hmiss, hs, logStatusExclusive]
  · rcases hq : env.sqlInvoke (env.sqlRender schema q) with e | raw
    · simp [run, runBody, Except.map, hmiss, hs, hq, logStatusExclusive]
    · rcases hd : env.dbRun (clean_sql raw) with e | rows
      · simp [run, runBody, Except.map, hmiss, hs, hq, hd, logStatusExclusive]
      · rcases hn : env.nlpInvoke
            (env.nlpRender q (clean_sql raw) (sanitize_result rows)) with e | rawAns
        · simp [run, runBody, Except.map, hmiss, hs, hq, hd, hn, logStatusExclusive]
        · obtain ⟨p, hset⟩ := set_ok_of_shape hshape fs env.saveOk q
            ⟨pyStripS rawAns, clean_sql raw⟩
          simp [run, runBody, Except.map, hmiss, hs, hq, hd, hn, hset, logStatusExclusive]

/-- Claim C3, witness: concrete instance of the invariant on a successful
run. -/
theorem claim_C3_witness :
    (run envOk cmE .missing "q").map (fun o => o.sink.map logStatusExclusive) =
      .ok [true] :=
  claim_C3 envOk cmE .missing "q" (by decide)

/-! ## Claim C4 — cache atomicity on error -/

/-- Claim C4: a cache entry is created or overwritten only after all three
stages complete; on a run failing at the generation (schema fetch or SQL
backend), execution, or synthesis stage, both the in-memory cache map and
the persisted cache file are unchanged. -/
theorem claim_C4 (env : Env) (cm : CacheManager) (fs : FileState) (q : String)
    (hmiss : cm.get q = .ok none) :
    (∀ e, env.schemaF = .error e →
      (run env cm fs q).map (fun o => (o.cache, o.file)) = .ok (cm, fs)) ∧
    (∀ schema e, env.schemaF = .ok schema →
      env.sqlInvoke (env.sqlRender schema q) = .error e →
      (run env cm fs q).map (fun o => (o.cache, o.file)) = .ok (cm, fs)) ∧
    (∀ schema raw e, env.schemaF = .ok schema →
      env.sqlInvoke (env.sqlRender schema q) = .ok raw →
      env.dbRun (clean_sql raw) = .error e →
      (run env cm fs q).map (fun o => (o.cache, o.file)) = .ok (cm, fs)) ∧
    (∀ schema raw rows e, env.schemaF = .ok schema →
      env.sqlInvoke (env.sqlRender schema q) = .ok raw →
      env.dbRun (clean_sql raw) = .ok rows →
      env.nlpInvoke (env.nlpRender q (clean_sql raw) (sanitize_result rows)) = .error e →
      (run env cm fs q).map (fun o => (o.cache, o.file)) = .ok (cm, fs)) := by
  refine ⟨?_, ?_, ?_, ?_⟩
  · intro e hs
    simp [run, runBody, Except.map, hmiss, hs]
  · intro schema e hs hq
    simp [run, runBody, Except.map, hmiss, hs, hq]
  · intro schema raw e hs hq hd
    simp [run, runBody, Except.map, hmiss, hs, hq, hd]
  · intro schema raw rows e hs hq hd hn
    simp [run, runBody, Except.map, hmiss, hs, hq, hd, hn]

/-- Claim C4, witness: a concrete synthesis-stage failure leaves the cache
and the backing file untouched. -/
theorem claim_C4_witness :
    (run envSynthFail cmE .missing "q").map (fun o => (o.cache, o.file)) =
      .ok (cmE, .missing) :=
  (claim_C4 envSynthFail cmE .missing "q" (by decide)).2.2.2
    "schema" "```sql\nSELECT 1\n```" [[PyVal.int 42]] "synth boom"
    rfl rfl rfl rfl

/-! ## Claim C10 — falsy fallback for an empty cleaned SQL -/

/-- Claim C10: if the generation stage completes but the cleaned SQL
string is empty, the returned response's `sql_query` is the literal
`"Failed"` marker rather than the empty generated SQL (the Python
`or`-fallback triggers on any falsy value), whatever happens in the later
stages. -/
theorem claim_C10 (env : Env) (cm : CacheManager) (fs : FileState)
    (q schema raw : String)
    (hmiss : cm.get q = .ok none)
    (hs : env.schemaF = .ok schema)
    (hq : env.sqlInvoke (env.sqlRender schema q) = .ok raw)
    (hempty : clean_sql raw = "") :
    (run env cm fs q).map (fun o => o.resp.sql_query) = .ok "Failed" := by
  have hshape := cache_shape_of_get_ok hmiss
  rcases hd : env.dbRun "" with e | rows
  · simp [run, runBody, Except.map, hmiss, hs, hq, hempty, hd, pyOr]
  · rcases hn : env.nlpInvoke (env.nlpRender q "" (sanitize_result rows)) with e | rawAns
    · simp [run, runBody, Except.map, hmiss, hs, hq, hempty, hd, hn, pyOr]
    · obtain ⟨p, hset⟩ := set_ok_of_shape hshape fs env.saveOk q
        ⟨pyStripS rawAns, ""⟩
      simp [run, runBody, Except.map, hmiss, hs, hq, hempty, hd, hn, hset, pyOr]

/-- Claim C10, witness: a backend output consisting only of a fence yields
the `"Failed"` marker even though all stages succeed. -/
theorem claim_C10_witness :
    (run envEmptySqlOk cmE .missing "q").map (fun o => o.resp.sql_query) =
      .ok "Failed" :=
  claim_C10 envEmptySqlOk cmE .missing "q" "schema" "```"
    (by decide) rfl rfl (by decide)

/-! ## Claim C1 — error containment at the orchestrator boundary -/

/-- Claim C1, counterexample: when the generation stage produces a SQL
string that cleans to the empty string and the execution stage then
raises, the response's `sql_query` is the `"Failed"` marker, NOT the
cleaned SQL that was produced — the fallback `log_entry.sql_query or
"Failed"` triggers on the empty (falsy) string, not only on absence. -/
theorem claim_C1_counterexample :
    (run envEmptySqlFail cmE .missing "q").map (fun o => o.resp.sql_query) =
      .ok "Failed" ∧
    clean_sql "```" = "" ∧
    ("Failed" : String) ≠ "" := by decide

/-- Claim C1, amended: for every non-cached run on which the generation
(schema fetch or SQL backend), execution, or synthesis stage raises an
exception with description `e`, `run` does not raise: it returns a
`QueryResponse` whose answer is `"Error: " ++ e` and whose `sql_query` is
the cleaned SQL if a NON-EMPTY one was produced, and the literal
`"Failed"` marker if no SQL was produced or the produced cleaned SQL is
the empty string. -/
theorem claim_C1_amended (env : Env) (cm : CacheManager) (fs : FileState)
    (q : String) (hmiss : cm.get q = .ok none) :
    (∀ e, env.schemaF = .error e →
      (run env cm fs q).map (fun o => (o.resp.answer, o.resp.sql_query)) =
        .ok ("Error: " ++ e, "Failed")) ∧
    (∀ schema e, env.schemaF = .ok schema →
      env.sqlInvoke (env.sqlRender schema q) = .error e →
      (run env cm fs q).map (fun o => (o.resp.answer, o.resp.sql_query)) =
        .ok ("Error: " ++ e, "Failed")) ∧
    (∀ schema raw e, env.schemaF = .ok schema →
      env.sqlInvoke (env.sqlRender schema q) = .ok raw →
      env.dbRun (clean_sql raw) = .error e →
      (run env cm fs q).map (fun o => (o.resp.answer, o.resp.sql_query)) =
        .ok ("Error: " ++ e,
             if clean_sql raw = "" then "Failed" else clean_sql raw)) ∧
    (∀ schema raw rows e, env.schemaF = .ok schema →
      env.sqlInvoke (env.sqlRender schema q) = .ok raw →
      env.dbRun (clean_sql raw) = .ok rows →
      env.nlpInvoke (env.nlpRender q (clean_sql raw) (sanitize_result rows)) = .error e →
      (run env cm fs q).map (fun o => (o.resp.answer, o.resp.sql_query)) =
        .ok ("Error: " ++ e,
             if clean_sql raw = "" then "Failed" else clean_sql raw)) := by
  refine ⟨?_, ?_, ?_, ?_⟩
  · intro e hs
    simp [run, runBody, Except.map, hmiss, hs, pyOr]
  · intro schema e hs hq
    simp [run, runBody, Except.map, hmiss, hs, hq, pyOr]
  · intro schema raw e hs hq hd
    simp [run, runBody, Except.map, hmiss, hs, hq, hd, pyOr]
  · intro schema raw rows e hs hq hd hn
    simp [run, runBody, Except.map, hmiss, hs, hq, hd, hn, pyOr]

/-- Claim C1, witness: a concrete synthesis-stage failure is contained
into a normal response carrying the error answer and the cleaned SQL. -/
theorem claim_C1_witness :
    (run envSynthFail cmE .missing "q").map
        (fun o => (o.resp.answer, o.resp.sql_query)) =
      .ok ("Error: synth boom",
           if clean_sql "```sql\nSELECT 1\n```" = "" then "Failed"
           else clean_sql "```sql\nSELECT 1\n```") :=
  (claim_C1_amended envSynthFail cmE .missing "q" (by decide)).2.2.2
    "schema" "```sql\nSELECT 1\n```" [[PyVal.int 42]] "synth boom"
    rfl rfl rfl rfl

/-! ## Claim C5 — cache idempotence with key normalization -/

/-- Claim C5, counterexample: when the fully successful first run's
cleaned SQL is the empty string, the first response carries the `"Failed"`
marker while the cache stores (and the second, cache-hit run returns) the
empty SQL — the two responses' `sql_query` are NOT identical. -/
theorem claim_C5_counterexample :
    (run envEmptySqlOk cmE .missing "q").map
        (fun o => (o.resp.sql_query, o.resp.answer)) =
      .ok ("Failed", "The answer is 42.") ∧
    (run envEmptySqlOk c5Mid.1 c5Mid.2 "q").map
        (fun o => (o.resp.sql_query, o.resp.answer, o.resp.from_cache)) =
      .ok ("", "The answer is 42.", true) ∧
    ("Failed" : String) ≠ "" := by decide

/-- Claim C5, amended: for any question answered once by a fully
successful run with cache enabled whose cleaned SQL is NON-EMPTY, a second
run — under any environment whatsoever, so no generation, execution, or
synthesis stage can be consulted — with any question having the same
normalized key (the same question up to surrounding whitespace and letter
case) is a cache hit returning the identical answer and sql_query, with
execution_time = 0, from_cache = true, and no structured record emitted. -/
theorem claim_C5_amended (env : Env) (cm : CacheManager) (fs : FileState)
    (q schema raw rawAns : String) (rows : List (List PyVal))
    (m : List (String × CacheEntry))
    (hen : cm.enabled = true) (hm : cm.cache = .dict m)
    (hmiss : cm.get q = .ok none)
    (hs : env.schemaF = .ok schema)
    (hq : env.sqlInvoke (env.sqlRender schema q) = .ok raw)
    (hne : clean_sql raw ≠ "")
    (hd : env.dbRun (clean_sql raw) = .ok rows)
    (hn : env.nlpInvoke (env.nlpRender q (clean_sql raw) (sanitize_result rows)) = .ok rawAns)
    (env2 : Env) (q2 : String) (hq2 : normKey q2 = normKey q) :
    (run env cm fs q).map
        (fun o => (o.resp.answer, o.resp.sql_query, o.resp.from_cache)) =
      .ok (pyStripS rawAns, clean_sql raw, false) ∧
    ((run env cm fs q).bind (fun o => run env2 o.cache o.file q2)).map
        (fun o => (o.resp.answer, o.resp.sql_query, o.resp.execution_time,
                   o.resp.from_cache, o.sink.length)) =
      .ok (pyStripS rawAns, clean_sql raw, 0, true, 0) := by
  have hset : cm.set fs env.saveOk q ⟨pyStripS rawAns, clean_sql raw⟩ =
      .ok (CacheManager.mk cm.enabled
             (.dict (setK m (normKey q) ⟨pyStripS rawAns, clean_sql raw⟩)),
           if env.saveOk then
             FileState.parsed
               (.dict (setK m (normKey q) ⟨pyStripS rawAns, clean_sql raw⟩))
           else fs) := by
    simp [CacheManager.set, hen, hm]
  have hget2 : CacheManager.get
      (CacheManager.mk cm.enabled
        (.dict (setK m (normKey q) ⟨pyStripS rawAns, clean_sql raw⟩))) q2 =
      .ok (some ⟨pyStripS rawAns, clean_sql raw⟩) := by
    simp [CacheManager.get, hen, hq2, lookupK_setK]
  constructor
  · simp [run, runBody, Except.map, hmiss, hs, hq, hd, hn, hset, pyOr, hne]
  · simp [run, runBody, Except.map, Except.bind, hmiss, hs, hq, hd, hn,
      hset, hget2, pyOr, hne]

/-- Claim C5, witness: a question cached by a successful run is answered
identically from the cache for a whitespace/case variant — here with the
spec's own normalization pair, under an environment in which every
external call fails, so no stage can have been consulted. -/
theorem claim_C5_witness :
    (run envOk cmE .missing "what is x?").map
        (fun o => (o.resp.answer, o.resp.sql_query, o.resp.from_cache)) =
      .ok (pyStripS " The answer is 42. ", clean_sql "```sql\nSELECT 1\n```", false) ∧
    ((run envOk cmE .missing "what is x?").bind
        (fun o => run envAllFail o.cache o.file " What Is X? ")).map
        (fun o => (o.resp.answer, o.resp.sql_query, o.resp.execution_time,
                   o.resp.from_cache, o.sink.length)) =
      .ok (pyStripS " The answer is 42. ", clean_sql "```sql\nSELECT 1\n```", 0, true, 0) :=
  claim_C5_amended envOk cmE .missing "what is x?" "schema"
    "```sql\nSELECT 1\n```" " The answer is 42. " [[PyVal.int 42]] []
    rfl rfl (by decide) rfl rfl (by decide) rfl rfl
    envAllFail " What Is X? " (by decide)
